import Mathlib

/-!
Shallow embedding of the wintun session layer (src/session.rs, src/log.rs).

The driver (the wintun DLL) and the OS wait primitive are external
collaborators.  We model them as explicit inputs: each operation receives the
values the driver or OS would hand back (returned pointers, sizes, last-error
codes, wait results) and returns, alongside its Rust-level result, the list of
driver calls it issued.  Pointers and handles are modelled as natural numbers
with 0 standing for the null pointer.  Rust `Result<T, ()>` becomes
`Except Unit T`.
-/

namespace Wintun

/-- Lifecycle state of a packet buffer (`packet::Kind` in the source:
`SendPacketPending`, `SendPacketSent`, `ReceivePacket`). -/
inductive Kind where
  | SendPacketPending
  | SendPacketSent
  | ReceivePacket
deriving DecidableEq, Repr

/-- A packet buffer: the driver-supplied region is modelled by its address and
length (`bytes: &mut [u8]` in the source), plus the lifecycle kind. -/
structure Packet where
  bytes_ptr : Nat
  bytes_len : Nat
  kind : Kind
deriving DecidableEq, Repr

/-- The `Session` struct: the driver session handle, the lazily created read
event cell (`OnceCell<UnsafeHandle<HANDLE>>`), and the shutdown event handle.
0 models a null handle. -/
structure SessionState where
  session : Nat
  read_event : Option Nat
  shutdown_event : Nat
deriving DecidableEq, Repr

/-- A call into the driver function table, recording which handle and
arguments the wrapper passed. -/
inductive DriverCall where
  | allocateSend (session : Nat) (size : Nat)
  | sendPacket (session : Nat) (bytesPtr : Nat)
  | receivePacket (session : Nat)
  | getReadWaitEvent (session : Nat)
  | endSession (session : Nat)
deriving DecidableEq, Repr

/-- winerror ERROR_NO_MORE_ITEMS, the code the driver sets when no packet is
queued. -/
def ERROR_NO_MORE_ITEMS : Nat := 259

/-- winbase WAIT_FAILED (0xFFFFFFFF as a DWORD). -/
def WAIT_FAILED : Nat := 4294967295

/-- winbase WAIT_OBJECT_0. -/
def WAIT_OBJECT_0 : Nat := 0

/-- What one call to WintunReceivePacket hands back: the returned region
pointer (0 = null), the size the driver wrote, and the last-error code
observed via GetLastError when the pointer is null. -/
structure RecvResp where
  ptr : Nat
  size : Nat
  lastError : Nat
deriving DecidableEq, Repr

/-- Session::allocate_send_packet.  `allocResp` is the pointer
WintunAllocateSendPacket returns (0 = null).  On null the function returns
`Err(())`; otherwise a `SendPacketPending` packet whose byte slice has length
exactly `size` (`slice::from_raw_parts_mut(ptr, size as usize)`). -/
def allocate_send_packet (s : SessionState) (size : Nat) (allocResp : Nat) :
    List DriverCall × Except Unit Packet :=
  ([DriverCall.allocateSend s.session size],
   if allocResp = 0 then Except.error ()
   else Except.ok ⟨allocResp, size, Kind.SendPacketPending⟩)

/-- Session::send_packet.  The source asserts
`matches!(packet.kind, Kind::SendPacketPending)`; an assertion failure is a
panic, modelled as `none`.  Otherwise the bytes pointer is handed to
WintunSendPacket and the kind becomes `SendPacketSent`. -/
def send_packet (s : SessionState) (p : Packet) :
    Option (List DriverCall × Packet) :=
  if p.kind = Kind.SendPacketPending then
    some ([DriverCall.sendPacket s.session p.bytes_ptr],
          { p with kind := Kind.SendPacketSent })
  else none

/-- Session::try_receive.  Issues one WintunReceivePacket call.  A non-null
pointer yields `Ok(Some(packet))` wrapping the region; a null pointer yields
`Ok(None)` when GetLastError() is ERROR_NO_MORE_ITEMS and `Err(())` for any
other code. -/
def try_receive (s : SessionState) (resp : RecvResp) :
    List DriverCall × Except Unit (Option Packet) :=
  ([DriverCall.receivePacket s.session],
   if resp.ptr = 0 then
     if resp.lastError = ERROR_NO_MORE_ITEMS then Except.ok none
     else Except.error ()
   else Except.ok (some ⟨resp.ptr, resp.size, Kind.ReceivePacket⟩))

/-- Session::get_read_wait_event.  `envHandle` is what
WintunGetReadWaitEvent would return if consulted.  Mirrors
`OnceCell::get_or_init`: if the cell is filled the cached handle is returned
and the driver is not called; otherwise the driver is called once and its
answer cached.  The result is always `Ok` (the Rust return type is
`Result<HANDLE, ()>` but no error path exists). -/
def get_read_wait_event (s : SessionState) (envHandle : Nat) :
    List DriverCall × Except Unit Nat × SessionState :=
  match s.read_event with
  | some h => ([], Except.ok h, s)
  | none =>
      ([DriverCall.getReadWaitEvent s.session], Except.ok envHandle,
       { s with read_event := some envHandle })

/-- Session::shutdown sets the shutdown event; no driver call, no state
change at this layer. -/
def shutdown (s : SessionState) : SessionState := s

/-- The Drop impl for Session: WintunEndSession is called on the session
handle and the handle is then overwritten with null. -/
def dropSession (s : SessionState) : List DriverCall × SessionState :=
  ([DriverCall.endSession s.session], { s with session := 0 })

/-- External inputs to receive_blocking: `polls n` is what the n-th
WintunReceivePacket call hands back, `waits n` the result of the n-th
WaitForMultipleObjects call, and `readWaitEvent` the handle
WintunGetReadWaitEvent would return. -/
structure Env where
  polls : Nat → RecvResp
  waits : Nat → Nat
  readWaitEvent : Nat

/-- Outcome of the fast-poll `for _ in 0..5` loop inside receive_blocking:
an early `return Err(err)`, an early `return Ok(packet)`, or falling through
after every attempt saw `Ok(None)`. -/
inductive FPOut where
  | errored
  | got (p : Packet)
  | exhausted
deriving DecidableEq, Repr

/-- The fast-poll loop of receive_blocking: up to `k` try_receive calls
starting at poll index `base`; stops at the first call that does not return
`Ok(None)`. -/
def fastPoll (s : SessionState) (polls : Nat → RecvResp) (base : Nat) :
    Nat → FPOut
  | 0 => FPOut.exhausted
  | k + 1 =>
      match (try_receive s (polls base)).2 with
      | Except.error _ => FPOut.errored
      | Except.ok (some p) => FPOut.got p
      | Except.ok none => fastPoll s polls (base + 1) k

/-- Number of try_receive calls the fast-poll loop actually issues before
stopping (instrumentation of the same recursion as `fastPoll`). -/
def fastPollCalls (s : SessionState) (polls : Nat → RecvResp) (base : Nat) :
    Nat → Nat
  | 0 => 0
  | k + 1 =>
      match (try_receive s (polls base)).2 with
      | Except.error _ => 1
      | Except.ok (some _) => 1
      | Except.ok none => 1 + fastPollCalls s polls (base + 1) k

/-- Result of receive_blocking: `Ok(packet)` or `Err(())`. -/
inductive RBOut where
  | ok (p : Packet)
  | err
deriving DecidableEq, Repr

/-- Session::receive_blocking, fuel-bounded: `none` means the unbounded Rust
loop has not terminated within `fuel` outer iterations.  Each iteration runs
the 5-attempt fast poll, then builds the wait handle array via
`get_read_wait_event()?` (propagating its error, a branch that is in fact
unreachable), then waits: WAIT_FAILED returns `Err(())`; WAIT_OBJECT_0 (read
event) continues the loop; WAIT_OBJECT_0 + 1 (shutdown event) returns
`Err(())`; any other wait result falls off the match and also continues the
loop. -/
def receive_blocking (env : Env) :
    SessionState → Nat → Nat → Nat → Option (RBOut × SessionState)
  | _, _, _, 0 => none
  | s, pollIdx, waitIdx, fuel + 1 =>
      match fastPoll s env.polls pollIdx 5 with
      | FPOut.errored => some (RBOut.err, s)
      | FPOut.got p => some (RBOut.ok p, s)
      | FPOut.exhausted =>
          match get_read_wait_event s env.readWaitEvent with
          | (_, Except.error _, s') => some (RBOut.err, s')
          | (_, Except.ok _, s') =>
              let r := env.waits waitIdx
              if r = WAIT_FAILED then some (RBOut.err, s')
              else if r = WAIT_OBJECT_0 then
                receive_blocking env s' (pollIdx + 5) (waitIdx + 1) fuel
              else if r = WAIT_OBJECT_0 + 1 then some (RBOut.err, s')
              else receive_blocking env s' (pollIdx + 5) (waitIdx + 1) fuel

/-- The session state after the wait-handle array has been built (the read
event cell is filled if it was not already). -/
def stateAfterRead (s : SessionState) (env : Env) : SessionState :=
  (get_read_wait_event s env.readWaitEvent).2.2

/-- receive_blocking with the error-propagation branch of the
`get_read_wait_event()?` call removed: handle acquisition is taken to
succeed unconditionally.  Comparing this with `receive_blocking` states that
the error branch there is unreachable. -/
def receive_blocking_noHandleErr (env : Env) :
    SessionState → Nat → Nat → Nat → Option (RBOut × SessionState)
  | _, _, _, 0 => none
  | s, pollIdx, waitIdx, fuel + 1 =>
      match fastPoll s env.polls pollIdx 5 with
      | FPOut.errored => some (RBOut.err, s)
      | FPOut.got p => some (RBOut.ok p, s)
      | FPOut.exhausted =>
          let s' := stateAfterRead s env
          let r := env.waits waitIdx
          if r = WAIT_FAILED then some (RBOut.err, s')
          else if r = WAIT_OBJECT_0 then
            receive_blocking_noHandleErr env s' (pollIdx + 5) (waitIdx + 1) fuel
          else if r = WAIT_OBJECT_0 + 1 then some (RBOut.err, s')
          else receive_blocking_noHandleErr env s' (pollIdx + 5) (waitIdx + 1) fuel

/-- set_default_logger_if_unset from src/log.rs, acting on the process-wide
SET_LOGGER flag: if the flag is unset, WintunSetLogger is called (first
component `true`) and the flag is set; otherwise nothing happens.  Returns
(whether registration was issued, new flag value). -/
def set_default_logger_if_unset (flag : Bool) : Bool × Bool :=
  if !flag then (true, true) else (false, flag)

/-- n successive calls to set_default_logger_if_unset, returning the total
number of WintunSetLogger registrations issued and the final flag. -/
def setLoggerMany : Bool → Nat → Nat × Bool
  | flag, 0 => (0, flag)
  | flag, n + 1 =>
      let step := set_default_logger_if_unset flag
      let rest := setLoggerMany step.2 n
      ((if step.1 then 1 else 0) + rest.1, rest.2)

/-- n successive calls to get_read_wait_event, where `hs i` is the handle the
driver would return on the i-th call if consulted; returns the concatenated
driver-call trace, the list of returned handles, and the final state. -/
def getReadWaitMany (hs : Nat → Nat) :
    SessionState → Nat → Nat → List DriverCall × List Nat × SessionState
  | s, _, 0 => ([], [], s)
  | s, i, n + 1 =>
      match get_read_wait_event s (hs i) with
      | (c, Except.ok r, s') =>
          let rest := getReadWaitMany hs s' (i + 1) n
          (c ++ rest.1, r :: rest.2.1, rest.2.2)
      | (c, Except.error _, s') => (c, [], s')

/-! Helper lemmas shared by the claim theorems. -/

theorem get_read_wait_event_ok (s : SessionState) (h : Nat) :
    ∃ v, (get_read_wait_event s h).2.1 = Except.ok v := by
  cases hre : s.read_event with
  | none => exact ⟨h, by simp [get_read_wait_event, hre]⟩
  | some a => exact ⟨a, by simp [get_read_wait_event, hre]⟩

theorem receive_blocking_step_got (env : Env) (s : SessionState)
    (pIdx wIdx fuel : Nat) (p : Packet)
    (hfp : fastPoll s env.polls pIdx 5 = FPOut.got p) :
    receive_blocking env s pIdx wIdx (fuel + 1) = some (RBOut.ok p, s) := by
  rw [receive_blocking, hfp]

theorem receive_blocking_step_errored (env : Env) (s : SessionState)
    (pIdx wIdx fuel : Nat)
    (hfp : fastPoll s env.polls pIdx 5 = FPOut.errored) :
    receive_blocking env s pIdx wIdx (fuel + 1) = some (RBOut.err, s) := by
  rw [receive_blocking, hfp]

theorem receive_blocking_step_exhausted (env : Env) (s : SessionState)
    (pIdx wIdx fuel : Nat)
    (hfp : fastPoll s env.polls pIdx 5 = FPOut.exhausted) :
    receive_blocking env s pIdx wIdx (fuel + 1) =
      (if env.waits wIdx = WAIT_FAILED then
        some (RBOut.err, stateAfterRead s env)
      else if env.waits wIdx = WAIT_OBJECT_0 then
        receive_blocking env (stateAfterRead s env) (pIdx + 5) (wIdx + 1) fuel
      else if env.waits wIdx = WAIT_OBJECT_0 + 1 then
        some (RBOut.err, stateAfterRead s env)
      else
        receive_blocking env (stateAfterRead s env) (pIdx + 5) (wIdx + 1) fuel) := by
  rw [receive_blocking, hfp]
  cases hre : s.read_event with
  | none => simp [get_read_wait_event, stateAfterRead, hre]
  | some a => simp [get_read_wait_event, stateAfterRead, hre]

theorem fastPoll_exhausted_iff (s : SessionState) (polls : Nat → RecvResp) :
    ∀ k base, (fastPoll s polls base k = FPOut.exhausted ↔
      ∀ i, i < k → (try_receive s (polls (base + i))).2 = Except.ok none) := by
  intro k
  induction k with
  | zero =>
      intro base
      simp [fastPoll]
  | succ k ih =>
      intro base
      cases hr : (try_receive s (polls base)).2 with
      | error e =>
          rw [fastPoll, hr]
          constructor
          · intro h; exact absurd h (by simp)
          · intro h
            have h0 := h 0 (by omega)
            rw [Nat.add_zero, hr] at h0
            exact absurd h0 (by simp)
      | ok val =>
          cases val with
          | none =>
              rw [fastPoll, hr, ih (base + 1)]
              constructor
              · intro h i hi
                cases i with
                | zero => simpa using hr
                | succ j =>
                    have hh := h j (by omega)
                    have harith : base + 1 + j = base + (j + 1) := by omega
                    rw [harith] at hh
                    exact hh
              · intro h i hi
                have hh := h (i + 1) (by omega)
                have harith : base + (i + 1) = base + 1 + i := by omega
                rw [harith] at hh
                exact hh
          | some p =>
              rw [fastPoll, hr]
              constructor
              · intro h; exact absurd h (by simp)
              · intro h
                have h0 := h 0 (by omega)
                rw [Nat.add_zero, hr] at h0
                exact absurd h0 (by simp)

theorem fastPollCalls_le (s : SessionState) (polls : Nat → RecvResp) :
    ∀ k base, fastPollCalls s polls base k ≤ k := by
  intro k
  induction k with
  | zero => intro base; simp [fastPollCalls]
  | succ k ih =>
      intro base
      cases hr : (try_receive s (polls base)).2 with
      | error e => simp only [fastPollCalls, hr]; omega
      | ok val =>
          cases val with
          | none =>
              simp only [fastPollCalls, hr]
              have := ih (base + 1)
              omega
          | some p => simp only [fastPollCalls, hr]; omega

theorem fastPollCalls_allNone (s : SessionState) (polls : Nat → RecvResp) :
    ∀ k base,
      (∀ i, i < k → (try_receive s (polls (base + i))).2 = Except.ok none) →
      fastPollCalls s polls base k = k := by
  intro k
  induction k with
  | zero => intro base _; rfl
  | succ k ih =>
      intro base h
      have h0 := h 0 (by omega)
      rw [Nat.add_zero] at h0
      have hrec : fastPollCalls s polls (base + 1) k = k := by
        apply ih
        intro i hi
        have hh := h (i + 1) (by omega)
        have harith : base + (i + 1) = base + 1 + i := by omega
        rw [harith] at hh
        exact hh
      simp only [fastPollCalls, h0, hrec]
      omega

theorem receive_blocking_eq_noHandleErr (env : Env) :
    ∀ fuel s pollIdx waitIdx,
      receive_blocking env s pollIdx waitIdx fuel =
        receive_blocking_noHandleErr env s pollIdx waitIdx fuel := by
  intro fuel
  induction fuel with
  | zero => intro s p w; rfl
  | succ f ih =>
      intro s p w
      rw [receive_blocking, receive_blocking_noHandleErr]
      cases hfp : fastPoll s env.polls p 5 <;> try rfl
      cases hre : s.read_event with
      | none => simp [get_read_wait_event, stateAfterRead, hre, ih]
      | some a => simp [get_read_wait_event, stateAfterRead, hre, ih]

theorem getReadWaitMany_cached (hs : Nat → Nat) (h : Nat) :
    ∀ n (s : SessionState) i, s.read_event = some h →
      getReadWaitMany hs s i n = ([], List.replicate n h, s) := by
  intro n
  induction n with
  | zero => intro s i _; rfl
  | succ n ih =>
      intro s i hre
      rw [getReadWaitMany]
      simp only [get_read_wait_event, hre]
      rw [ih s (i + 1) hre]
      simp [List.replicate]

theorem setLoggerMany_true (n : Nat) : setLoggerMany true n = (0, true) := by
  induction n with
  | zero => rfl
  | succ n ih => rw [setLoggerMany]; simp [set_default_logger_if_unset, ih]

/-! Claim theorems. -/

/-- Claim C1: whenever receive_blocking reaches the OS multi-handle wait
(all five fast-poll attempts reported no data), a WAIT_FAILED wait result
makes the call return the terminal error; the readiness handle being the one
signaled (WAIT_OBJECT_0) makes the call re-enter the fast-poll phase rather
than return; the cancel handle being the one signaled (WAIT_OBJECT_0 + 1)
makes the call return the terminal error. -/
theorem C1_wait_step_trichotomy (env : Env) (s : SessionState)
    (pIdx wIdx fuel : Nat)
    (hex : ∀ i, i < 5 →
      (try_receive s (env.polls (pIdx + i))).2 = Except.ok none) :
    (env.waits wIdx = WAIT_FAILED →
       receive_blocking env s pIdx wIdx (fuel + 1) =
         some (RBOut.err, stateAfterRead s env)) ∧
    (env.waits wIdx = WAIT_OBJECT_0 →
       receive_blocking env s pIdx wIdx (fuel + 1) =
         receive_blocking env (stateAfterRead s env) (pIdx + 5) (wIdx + 1)
           fuel) ∧
    (env.waits wIdx = WAIT_OBJECT_0 + 1 →
       receive_blocking env s pIdx wIdx (fuel + 1) =
         some (RBOut.err, stateAfterRead s env)) := by
  have hfp : fastPoll s env.polls pIdx 5 = FPOut.exhausted :=
    (fastPoll_exhausted_iff s env.polls 5 pIdx).2 hex
  have hstep := receive_blocking_step_exhausted env s pIdx wIdx fuel hfp
  refine ⟨?_, ?_, ?_⟩ <;> intro hw <;> rw [hstep, hw] <;>
    simp [WAIT_FAILED, WAIT_OBJECT_0]

theorem C1_wait_step_trichotomy_witness :
    receive_blocking ⟨fun _ => ⟨0, 0, 259⟩, fun _ => 1, 7⟩ ⟨1, none, 2⟩ 0 0 1 =
      some (RBOut.err,
        stateAfterRead ⟨1, none, 2⟩ ⟨fun _ => ⟨0, 0, 259⟩, fun _ => 1, 7⟩) :=
  (C1_wait_step_trichotomy ⟨fun _ => ⟨0, 0, 259⟩, fun _ => 1, 7⟩ ⟨1, none, 2⟩
      0 0 0 (fun _ _ => rfl)).2.2 rfl

/-- Claim C2: in each outer iteration of receive_blocking, try_receive is
called at most 5 times (and exactly 5 times when no data arrives); a
fast-poll attempt yielding a buffer makes receive_blocking return that
buffer immediately, one yielding a real failure makes it return the failure
immediately, and the OS wait is entered exactly when all 5 attempts report
no data. -/
theorem C2_fast_poll_phase (env : Env) (s : SessionState)
    (pIdx wIdx fuel : Nat) :
    fastPollCalls s env.polls pIdx 5 ≤ 5 ∧
    (∀ p, fastPoll s env.polls pIdx 5 = FPOut.got p →
       receive_blocking env s pIdx wIdx (fuel + 1) = some (RBOut.ok p, s)) ∧
    (fastPoll s env.polls pIdx 5 = FPOut.errored →
       receive_blocking env s pIdx wIdx (fuel + 1) = some (RBOut.err, s)) ∧
    (fastPoll s env.polls pIdx 5 = FPOut.exhausted ↔
       ∀ i, i < 5 →
         (try_receive s (env.polls (pIdx + i))).2 = Except.ok none) ∧
    ((∀ i, i < 5 →
         (try_receive s (env.polls (pIdx + i))).2 = Except.ok none) →
       fastPollCalls s env.polls pIdx 5 = 5) :=
  ⟨fastPollCalls_le s env.polls 5 pIdx,
   fun p hfp => receive_blocking_step_got env s pIdx wIdx fuel p hfp,
   fun hfp => receive_blocking_step_errored env s pIdx wIdx fuel hfp,
   fastPoll_exhausted_iff s env.polls 5 pIdx,
   fastPollCalls_allNone s env.polls 5 pIdx⟩

theorem C2_fast_poll_phase_witness :
    receive_blocking ⟨fun _ => ⟨9, 4, 0⟩, fun _ => 0, 7⟩ ⟨1, none, 2⟩ 0 0 1 =
      some (RBOut.ok ⟨9, 4, Kind.ReceivePacket⟩, ⟨1, none, 2⟩) :=
  (C2_fast_poll_phase ⟨fun _ => ⟨9, 4, 0⟩, fun _ => 0, 7⟩ ⟨1, none, 2⟩
      0 0 0).2.1 ⟨9, 4, Kind.ReceivePacket⟩ rfl

/-- Claim C3: try_receive issues exactly one driver poll, and its result is a
trichotomy on the driver's answer: non-null region gives a Received packet
wrapping that region; null region with last-error ERROR_NO_MORE_ITEMS gives
the explicit empty result; null region with any other last-error code gives
the failure result. -/
theorem C3_try_receive_trichotomy (s : SessionState) (resp : RecvResp) :
    (try_receive s resp).1 = [DriverCall.receivePacket s.session] ∧
    (resp.ptr ≠ 0 →
       (try_receive s resp).2 =
         Except.ok (some ⟨resp.ptr, resp.size, Kind.ReceivePacket⟩)) ∧
    (resp.ptr = 0 → resp.lastError = ERROR_NO_MORE_ITEMS →
       (try_receive s resp).2 = Except.ok none) ∧
    (resp.ptr = 0 → resp.lastError ≠ ERROR_NO_MORE_ITEMS →
       (try_receive s resp).2 = Except.error ()) := by
  refine ⟨rfl, ?_, ?_, ?_⟩
  · intro h; simp [try_receive, h]
  · intro h1 h2; simp [try_receive, h1, h2]
  · intro h1 h2; simp [try_receive, h1, h2]

theorem C3_try_receive_trichotomy_witness :
    (try_receive ⟨1, none, 2⟩ ⟨7, 3, 0⟩).2 =
      Except.ok (some ⟨7, 3, Kind.ReceivePacket⟩) :=
  (C3_try_receive_trichotomy ⟨1, none, 2⟩ ⟨7, 3, 0⟩).2.1 (by decide)

/-- Claim C4 fails on the code: every failure is surfaced as the untyped
unit error, so distinct failure causes are not distinguishable.  Concretely,
a receive_blocking run cancelled by the shutdown handle and one whose OS
wait failed return the identical value, and an allocation failure and a
receive failure are both the bare `Except.error ()`. -/
theorem C4_counterexample :
    receive_blocking ⟨fun _ => ⟨0, 0, 259⟩, fun _ => 1, 7⟩ ⟨1, none, 2⟩
        0 0 1 =
      receive_blocking ⟨fun _ => ⟨0, 0, 259⟩, fun _ => 4294967295, 7⟩
        ⟨1, none, 2⟩ 0 0 1 ∧
    receive_blocking ⟨fun _ => ⟨0, 0, 259⟩, fun _ => 1, 7⟩ ⟨1, none, 2⟩
        0 0 1 = some (RBOut.err, ⟨1, some 7, 2⟩) ∧
    (allocate_send_packet ⟨1, none, 2⟩ 100 0).2 = Except.error () ∧
    (try_receive ⟨1, none, 2⟩ ⟨0, 0, 5⟩).2 = Except.error () :=
  ⟨rfl, rfl, rfl, rfl⟩

/-- Claim C4 amended: every failure is surfaced to the immediate caller as
an explicit error result value, distinguishable from success and from the
empty result; but the error payload is the unit type, so the four causes in
the taxonomy all produce the same error value. -/
theorem C4_amended_untyped_errors (s : SessionState) (size : Nat)
    (resp : RecvResp) (env : Env) (pIdx wIdx fuel : Nat)
    (hp : resp.ptr = 0) (he : resp.lastError ≠ ERROR_NO_MORE_ITEMS)
    (hex : ∀ i, i < 5 →
      (try_receive s (env.polls (pIdx + i))).2 = Except.ok none) :
    (allocate_send_packet s size 0).2 = Except.error () ∧
    (try_receive s resp).2 = Except.error () ∧
    (env.waits wIdx = WAIT_FAILED →
       receive_blocking env s pIdx wIdx (fuel + 1) =
         some (RBOut.err, stateAfterRead s env)) ∧
    (env.waits wIdx = WAIT_OBJECT_0 + 1 →
       receive_blocking env s pIdx wIdx (fuel + 1) =
         some (RBOut.err, stateAfterRead s env)) := by
  have hfp : fastPoll s env.polls pIdx 5 = FPOut.exhausted :=
    (fastPoll_exhausted_iff s env.polls 5 pIdx).2 hex
  have hstep := receive_blocking_step_exhausted env s pIdx wIdx fuel hfp
  refine ⟨by simp [allocate_send_packet], by simp [try_receive, hp, he],
    ?_, ?_⟩
  · intro hw; rw [hstep, hw]; simp [WAIT_FAILED]
  · intro hw; rw [hstep, hw]; simp [WAIT_FAILED, WAIT_OBJECT_0]

theorem C4_amended_untyped_errors_witness :
    receive_blocking ⟨fun _ => ⟨0, 0, 259⟩, fun _ => 4294967295, 7⟩
        ⟨1, none, 2⟩ 0 0 1 =
      some (RBOut.err,
        stateAfterRead ⟨1, none, 2⟩
          ⟨fun _ => ⟨0, 0, 259⟩, fun _ => 4294967295, 7⟩) :=
  (C4_amended_untyped_errors ⟨1, none, 2⟩ 100 ⟨0, 0, 5⟩
      ⟨fun _ => ⟨0, 0, 259⟩, fun _ => 4294967295, 7⟩ 0 0 0 rfl (by decide)
      (fun _ _ => rfl)).2.2.1 rfl

/-- Claim C5: send_packet asserts the packet is in the PendingSend state,
panicking (modelled by `none`) on any other state; in the PendingSend state
it hands the bytes pointer to the driver and transitions the packet to the
Sent state. -/
theorem C5_send_packet_contract (s : SessionState) (p : Packet) :
    (p.kind ≠ Kind.SendPacketPending → send_packet s p = none) ∧
    (p.kind = Kind.SendPacketPending →
       send_packet s p =
         some ([DriverCall.sendPacket s.session p.bytes_ptr],
               { p with kind := Kind.SendPacketSent })) := by
  constructor <;> intro h <;> simp [send_packet, h]

theorem C5_send_packet_contract_witness :
    send_packet ⟨1, none, 2⟩ ⟨5, 3, Kind.SendPacketPending⟩ =
      some ([DriverCall.sendPacket 1 5], ⟨5, 3, Kind.SendPacketSent⟩) :=
  (C5_send_packet_contract ⟨1, none, 2⟩ ⟨5, 3, Kind.SendPacketPending⟩).2 rfl

/-- Claim C6: for every size expressible at the API (the parameter is a u16,
so size < 65536 and requests above the driver's accepted maximum are
unrepresentable), allocate_send_packet fails exactly when the driver returns
the null sentinel, and otherwise yields a PendingSend packet whose byte
region has length exactly the requested size. -/
theorem C6_allocate_send_packet_spec (s : SessionState)
    (size allocResp : Nat) (hsize : size < 65536) :
    ((allocate_send_packet s size allocResp).2 = Except.error () ↔
       allocResp = 0) ∧
    (allocResp ≠ 0 →
       (allocate_send_packet s size allocResp).2 =
         Except.ok ⟨allocResp, size, Kind.SendPacketPending⟩) ∧
    (∀ p, (allocate_send_packet s size allocResp).2 = Except.ok p →
       p.bytes_len = size ∧ p.kind = Kind.SendPacketPending) := by
  refine ⟨⟨?_, ?_⟩, ?_, ?_⟩
  · intro h
    by_contra hne
    simp [allocate_send_packet, hne] at h
  · intro h; simp [allocate_send_packet, h]
  · intro h; simp [allocate_send_packet, h]
  · intro p hp
    by_cases h : allocResp = 0
    · simp [allocate_send_packet, h] at hp
    · simp [allocate_send_packet, h] at hp
      rw [← hp]
      exact ⟨rfl, rfl⟩

theorem C6_allocate_send_packet_spec_witness :
    (allocate_send_packet ⟨1, none, 2⟩ 100 9).2 =
      Except.ok ⟨9, 100, Kind.SendPacketPending⟩ :=
  (C6_allocate_send_packet_spec ⟨1, none, 2⟩ 100 9 (by decide)).2.1
    (by decide)

/-- Claim C7 fails on the code: after teardown the handle is nulled, but an
operation attempted on the torn-down session does not fail — it still
invokes the driver (with the null handle) and, when the driver hands back a
region, even returns success. -/
theorem C7_counterexample :
    dropSession ⟨3, none, 2⟩ = ([DriverCall.endSession 3], ⟨0, none, 2⟩) ∧
    try_receive (dropSession ⟨3, none, 2⟩).2 ⟨5, 10, 0⟩ =
      ([DriverCall.receivePacket 0],
       Except.ok (some ⟨5, 10, Kind.ReceivePacket⟩)) :=
  ⟨rfl, rfl⟩

/-- Claim C7 amended: at teardown the driver's end-session call is issued on
the session handle exactly once and the handle is then overwritten with the
null value; an operation attempted afterwards passes the null handle — never
the stale handle — to the driver (in the Rust source such attempts are
prevented statically by ownership; the code adds no runtime check that makes
them fail). -/
theorem C7_amended_teardown (s : SessionState) (resp : RecvResp)
    (size allocResp : Nat) (p : Packet)
    (hker : p.kind = Kind.SendPacketPending) (hns : s.session ≠ 0) :
    (dropSession s).1 = [DriverCall.endSession s.session] ∧
    (dropSession s).2.session = 0 ∧
    (try_receive (dropSession s).2 resp).1 = [DriverCall.receivePacket 0] ∧
    (allocate_send_packet (dropSession s).2 size allocResp).1 =
      [DriverCall.allocateSend 0 size] ∧
    send_packet (dropSession s).2 p =
      some ([DriverCall.sendPacket 0 p.bytes_ptr],
            { p with kind := Kind.SendPacketSent }) ∧
    DriverCall.receivePacket ((dropSession s).2.session) ≠
      DriverCall.receivePacket s.session := by
  refine ⟨rfl, rfl, rfl, rfl, ?_, ?_⟩
  · simp [send_packet, dropSession, hker]
  · intro h
    injection h with h'
    exact hns h'.symm

theorem C7_amended_teardown_witness :
    send_packet (dropSession ⟨3, none, 2⟩).2 ⟨5, 3, Kind.SendPacketPending⟩ =
      some ([DriverCall.sendPacket 0 5], ⟨5, 3, Kind.SendPacketSent⟩) :=
  (C7_amended_teardown ⟨3, none, 2⟩ ⟨0, 0, 259⟩ 10 4
      ⟨5, 3, Kind.SendPacketPending⟩ rfl (by decide)).2.2.2.2.1

/-- Claim C8: the readiness handle is created lazily and cached.  Across any
sequence of get_read_wait_event calls, if the cell starts empty the driver's
WintunGetReadWaitEvent is invoked exactly once and every call returns the
handle obtained then; if the cell is already filled the driver is never
invoked and every call returns the cached handle, which is retained
unchanged in the session state. -/
theorem C8_read_event_cached_once (hs : Nat → Nat) (s : SessionState)
    (n i : Nat) :
    (s.read_event = none →
       getReadWaitMany hs s i (n + 1) =
         ([DriverCall.getReadWaitEvent s.session],
          List.replicate (n + 1) (hs i),
          { s with read_event := some (hs i) })) ∧
    (∀ h, s.read_event = some h →
       getReadWaitMany hs s i n = ([], List.replicate n h, s)) := by
  constructor
  · intro hre
    rw [getReadWaitMany]
    simp only [get_read_wait_event, hre]
    rw [getReadWaitMany_cached hs (hs i) n { s with read_event := some (hs i) }
        (i + 1) rfl]
    simp [List.replicate]
  · intro h hre
    exact getReadWaitMany_cached hs h n s i hre

theorem C8_read_event_cached_once_witness :
    getReadWaitMany (fun _ => 11) ⟨1, none, 2⟩ 0 3 =
      ([DriverCall.getReadWaitEvent 1], [11, 11, 11], ⟨1, some 11, 2⟩) :=
  (C8_read_event_cached_once (fun _ => 11) ⟨1, none, 2⟩ 2 0).1 rfl

/-- Claim C9: within one process, only the first call to
set_default_logger_if_unset performs the driver's logger registration; any
sequence of n + 1 calls starting from the unset flag issues exactly one
registration, and a call made with the flag already set issues none. -/
theorem C9_logger_registered_once (n : Nat) :
    setLoggerMany false (n + 1) = (1, true) ∧
    set_default_logger_if_unset true = (false, true) := by
  constructor
  · rw [setLoggerMany]
    simp [set_default_logger_if_unset, setLoggerMany_true n]
  · rfl

/-- Claim C10: get_read_wait_event never returns the error variant, and
consequently receive_blocking coincides with the variant of itself whose
handle-acquisition error branch is removed: that branch is unreachable, so
acquiring the readiness handle can never be the cause of a receive_blocking
failure. -/
theorem C10_get_read_wait_event_infallible (s : SessionState) (h : Nat)
    (env : Env) :
    (∃ v, (get_read_wait_event s h).2.1 = Except.ok v) ∧
    (∀ fuel s0 pIdx wIdx,
       receive_blocking env s0 pIdx wIdx fuel =
         receive_blocking_noHandleErr env s0 pIdx wIdx fuel) :=
  ⟨get_read_wait_event_ok s h,
   fun fuel s0 pIdx wIdx =>
     receive_blocking_eq_noHandleErr env fuel s0 pIdx wIdx⟩

end Wintun
